import Mathlib

/-!
Verification of the filter-and-aggregate pipeline of the FIFA data dashboard
(`src/streamlit_app.py`).

The pipeline embedded here consists of:

* the row filter built at lines 124-128:
  `filtered_df = df[(df['Age'] >= age_range[0]) & (df['Age'] <= age_range[1]) &
  (df['OverallRating'] >= overall_range[0]) & (df['OverallRating'] <= overall_range[1]) &
  (df['Nationality'].isin(selected_nationalities))]`
* the club aggregate built at lines 177-178:
  `club_avg = filtered_df.groupby('Club', as_index=False)['OverallRating'].mean()`
  `club_avg = club_avg.sort_values(by='OverallRating', ascending=False).head(10)`
* the default control state computed at lines 112-121 (slider defaults are
  the column min/max, the multiselect default is all distinct nationalities).

A pandas `DataFrame` is embedded as a `List Record` (an ordered sequence of
rows); boolean-mask selection is a stable `List.filter`; `groupby` with its
default `sort=True` lists the distinct group keys in ascending order;
`.mean()` is the exact arithmetic mean over `ℚ` (ratings are integers, so the
sum is exact; the float division of the original is embedded as exact
rational division); `sort_values(ascending=False)` is a sort that is
descending on the mean column (the original's tie order is unspecified, so we
use a stable sort; no claim below depends on tie order); `head(10)` is
`List.take 10`.
-/

/-- One row of the source table, with the columns the pipeline reads:
`Age`, `OverallRating`, `Nationality`, `Club`, `Value ` and `Name`. -/
structure Record where
  age : Int
  overallRating : Int
  nationality : String
  club : String
  value : Int
  name : String
deriving Repr, DecidableEq

/-- The current control state of the sidebar: the two endpoints of the
`Select Age Range` slider, the two endpoints of the `Select Overall Rating
Range` slider, and the `Select Nationalities` multiselect value. -/
structure FilterCriteria where
  ageLow : Int
  ageHigh : Int
  ratingLow : Int
  ratingHigh : Int
  nationalities : List String
deriving Repr, DecidableEq

/-- The per-row boolean mask of lines 125-127: conjunction of the two
inclusive range tests and the `isin` membership test. -/
def filterPred (c : FilterCriteria) (r : Record) : Bool :=
  decide (c.ageLow ≤ r.age) && decide (r.age ≤ c.ageHigh) &&
  decide (c.ratingLow ≤ r.overallRating) && decide (r.overallRating ≤ c.ratingHigh) &&
  decide (r.nationality ∈ c.nationalities)

/-- Lines 124-128: boolean-mask selection `df[mask]`, a stable filter that
keeps exactly the rows whose mask entry is true, in their original order. -/
def filtered_df (df : List Record) (c : FilterCriteria) : List Record :=
  df.filter (filterPred c)

/-- C1: the filter is sound and complete: a record is in the filtered view
iff it is in the dataset and satisfies the age range, rating range and
nationality membership tests (all inclusive, conjoined). -/
theorem filtered_df_sound_complete (df : List Record) (c : FilterCriteria) (r : Record) :
    r ∈ filtered_df df c ↔
      r ∈ df ∧ (c.ageLow ≤ r.age ∧ r.age ≤ c.ageHigh) ∧
        (c.ratingLow ≤ r.overallRating ∧ r.overallRating ≤ c.ratingHigh) ∧
        r.nationality ∈ c.nationalities := by
  simp [filtered_df, List.mem_filter, filterPred, and_assoc]

/-- C3: the filtered view is a subsequence of the dataset: the filter is
stable and performs no reordering. -/
theorem filtered_df_sublist (df : List Record) (c : FilterCriteria) :
    List.Sublist (filtered_df df c) df :=
  List.filter_sublist df

/-- C5: filtering is idempotent: filtering an already-filtered view with the
same criteria changes nothing. -/
theorem filtered_df_idempotent (df : List Record) (c : FilterCriteria) :
    filtered_df (filtered_df df c) c = filtered_df df c := by
  apply List.filter_eq_self.mpr
  intro r hr
  exact List.of_mem_filter hr

/-- C9: the filter is total on all bound values; with inverted bounds
(lower strictly above upper, violating the stated input constraint) it
returns the empty list rather than failing. -/
theorem filtered_df_inverted_bounds (df : List Record) (c : FilterCriteria)
    (h : c.ageHigh < c.ageLow ∨ c.ratingHigh < c.ratingLow) :
    filtered_df df c = [] := by
  apply List.filter_eq_nil_iff.mpr
  intro r _
  simp only [filterPred, Bool.and_eq_true, decide_eq_true_eq]
  rintro ⟨⟨⟨⟨h1, h2⟩, h3⟩, h4⟩, -⟩
  rcases h with hAge | hRat <;> omega

/-- One row of the aggregate table `club_avg`: a club and the mean of
`OverallRating` over that club's rows in the filtered view. -/
structure ClubMean where
  club : String
  meanRating : ℚ
deriving Repr, DecidableEq

/-- The ratings of the rows of `rows` belonging to club `cl` (the group
selected by `groupby('Club')` followed by the `['OverallRating']` column). -/
def clubRatings (rows : List Record) (cl : String) : List Int :=
  (rows.filter (fun r => r.club == cl)).map Record.overallRating

/-- The `.mean()` of one group: sum of the group's ratings divided by the
group's size, as an exact rational. -/
def meanOfClub (rows : List Record) (cl : String) : ℚ :=
  ((clubRatings rows cl).sum : ℚ) / ((clubRatings rows cl).length : ℚ)

/-- The distinct club values of `rows` in ascending order: `groupby('Club')`
with its default `sort=True` produces one group per distinct key, keys
ascending. -/
def clubKeys (rows : List Record) : List String :=
  List.insertionSort (fun a b : String => a ≤ b) ((rows.map Record.club).dedup)

/-- Comparison used by `sort_values(by='OverallRating', ascending=False)`:
`x` comes before `y` when `x`'s mean is at least `y`'s. -/
def byMeanDesc (x y : ClubMean) : Prop := y.meanRating ≤ x.meanRating

instance : DecidableRel byMeanDesc := fun x y =>
  inferInstanceAs (Decidable (y.meanRating ≤ x.meanRating))

instance : IsTotal ClubMean byMeanDesc := ⟨fun x y => le_total y.meanRating x.meanRating⟩

instance : IsTrans ClubMean byMeanDesc := ⟨fun _ _ _ h1 h2 => le_trans h2 h1⟩

/-- Lines 177-178: group the filtered view by club, take the mean rating per
group, sort descending by mean rating and keep the first 10 rows. -/
def club_avg (rows : List Record) : List ClubMean :=
  (List.insertionSort byMeanDesc
    ((clubKeys rows).map (fun cl => ClubMean.mk cl (meanOfClub rows cl)))).take 10

/-- C2: the aggregate has at most 10 entries; it is sorted descending by
mean rating; its clubs are pairwise distinct (one group per distinct club);
each entry's mean is the sum of the ratings of exactly the filtered-view
rows with that club divided by their count; and when at most 10 distinct
clubs exist every club appears (truncation is a no-op). -/
theorem club_avg_spec (rows : List Record) :
    (club_avg rows).length ≤ 10 ∧
    (club_avg rows).Pairwise (fun x y => y.meanRating ≤ x.meanRating) ∧
    (club_avg rows).Pairwise (fun x y => x.club ≠ y.club) ∧
    (∀ e ∈ club_avg rows,
        e.meanRating =
          (((rows.filter (fun r => r.club == e.club)).map Record.overallRating).sum : ℚ) /
            ((rows.filter (fun r => r.club == e.club)).length : ℚ)) ∧
    ((rows.map Record.club).dedup.length ≤ 10 →
      ∀ cl ∈ rows.map Record.club, ∃ e ∈ club_avg rows, e.club = cl) := by
  set ks := clubKeys rows with hks
  set mapped := ks.map (fun cl => ClubMean.mk cl (meanOfClub rows cl)) with hmapped
  set sorted := List.insertionSort byMeanDesc mapped with hsorted
  have hca : club_avg rows = sorted.take 10 := rfl
  refine ⟨?_, ?_, ?_, ?_, ?_⟩
  · rw [hca, List.length_take]
    exact min_le_left _ _
  · rw [hca]
    exact List.Pairwise.sublist (List.take_sublist _ _)
      (List.sorted_insertionSort byMeanDesc mapped)
  · have hnodupks : ks.Nodup :=
      ((List.perm_insertionSort _ _).nodup_iff).mpr (List.nodup_dedup _)
    have hmappedpw : mapped.Pairwise (fun x y => x.club ≠ y.club) :=
      (List.pairwise_map).mpr hnodupks
    have hsortedpw : sorted.Pairwise (fun x y => x.club ≠ y.club) :=
      ((List.perm_insertionSort byMeanDesc mapped).pairwise_iff
        (fun h => Ne.symm h)).mpr hmappedpw
    rw [hca]
    exact List.Pairwise.sublist (List.take_sublist _ _) hsortedpw
  · intro e he
    rw [hca] at he
    have he2 : e ∈ mapped :=
      ((List.perm_insertionSort byMeanDesc mapped).mem_iff).mp (List.mem_of_mem_take he)
    obtain ⟨cl, hcl, rfl⟩ := List.mem_map.mp he2
    simp [meanOfClub, clubRatings]
  · intro h10 cl hcl
    have hkcl : cl ∈ ks :=
      ((List.perm_insertionSort _ _).mem_iff).mpr (List.mem_dedup.mpr hcl)
    have hes : ClubMean.mk cl (meanOfClub rows cl) ∈ sorted :=
      ((List.perm_insertionSort byMeanDesc mapped).mem_iff).mpr
        (List.mem_map_of_mem _ hkcl)
    have hlen : sorted.length ≤ 10 := by
      rw [hsorted, List.length_insertionSort, hmapped, List.length_map, hks, clubKeys,
        List.length_insertionSort]
      exact h10
    rw [hca, List.take_of_length_le hlen]
    exact ⟨_, hes, rfl⟩

/-- The first record of the spec's concrete scenario. -/
def P1 : Record := ⟨20, 70, "A", "X", 1, "P1"⟩

/-- The second record of the spec's concrete scenario. -/
def P2 : Record := ⟨25, 90, "B", "Y", 2, "P2"⟩

/-- The third record of the spec's concrete scenario. -/
def P3 : Record := ⟨30, 80, "A", "X", 3, "P3"⟩

/-- The three-record dataset of the spec's concrete scenario. -/
def dataset0 : List Record := [P1, P2, P3]

/-- The scenario criteria: age in `[20, 30]`, rating in `[70, 90]`,
permitted nationalities `{"A"}`. -/
def crit0 : FilterCriteria := ⟨20, 30, 70, 90, ["A"]⟩

/-- The scenario criteria with an empty permitted-nationality set. -/
def critEmptyNat : FilterCriteria := ⟨20, 30, 70, 90, []⟩

/-- Criteria with inverted age bounds (lower above upper). -/
def critInv : FilterCriteria := ⟨30, 20, 70, 90, ["A"]⟩

/-- Witness for `club_avg_spec` at a concrete input: the filtered scenario
data has at most 10 distinct clubs, so its club `"X"` appears in the
aggregate. -/
theorem club_avg_spec_witness :
    ∃ e ∈ club_avg (filtered_df dataset0 crit0), e.club = "X" :=
  (club_avg_spec (filtered_df dataset0 crit0)).2.2.2.2 (by decide) "X" (by decide)

/-- C4: an empty filtered view is a valid aggregate input: the aggregate is
the empty table, with no error (the function is total). -/
theorem club_avg_of_empty_filter (df : List Record) (c : FilterCriteria)
    (h : filtered_df df c = []) : club_avg (filtered_df df c) = [] := by
  rw [h]
  rfl

/-- Witness for `club_avg_of_empty_filter`: an empty permitted-nationality
set filters the scenario dataset down to nothing, and the aggregate of that
empty view is empty. -/
theorem club_avg_of_empty_filter_witness :
    filtered_df dataset0 critEmptyNat = [] ∧
      club_avg (filtered_df dataset0 critEmptyNat) = [] :=
  ⟨by decide, club_avg_of_empty_filter dataset0 critEmptyNat (by decide)⟩

/-- C7: on the spec's concrete scenario, the filtered view is exactly
`[P1, P3]` (P2 is excluded by nationality) and the aggregate is exactly
`[{club := "X", mean := 75}]`. -/
theorem scenario_concrete :
    filtered_df dataset0 crit0 = [P1, P3] ∧
      club_avg (filtered_df dataset0 crit0) = [ClubMean.mk "X" 75] := by
  have h1 : filtered_df dataset0 crit0 = [P1, P3] := by decide
  refine ⟨h1, ?_⟩
  rw [h1]
  simp [club_avg, clubKeys, meanOfClub, clubRatings, P1, P3]
  norm_num

/-- Witness for `filtered_df_inverted_bounds`: with age bounds `[30, 20]`
the filter of the scenario dataset is empty rather than an error. -/
theorem filtered_df_inverted_bounds_witness :
    (critInv.ageHigh < critInv.ageLow ∨ critInv.ratingHigh < critInv.ratingLow) ∧
      filtered_df dataset0 critInv = [] :=
  ⟨Or.inl (by decide), filtered_df_inverted_bounds dataset0 critInv (Or.inl (by decide))⟩

/-- `df[col].min()` on a nonempty column: fold of `min` over the values.
(`0` is an arbitrary value for the empty column, where the original's
`int(nan)` would fail; the theorems below assume a nonempty table.) -/
def colMin : List Int → Int
  | [] => 0
  | a :: as => as.foldl min a

/-- `df[col].max()` on a nonempty column, as `colMin`. -/
def colMax : List Int → Int
  | [] => 0
  | a :: as => as.foldl max a

/-- Line 112: `age_min = int(df['Age'].min())`. -/
def age_min (df : List Record) : Int := colMin (df.map Record.age)

/-- Line 112: `age_max = int(df['Age'].max())`. -/
def age_max (df : List Record) : Int := colMax (df.map Record.age)

/-- Line 116: `overall_min = int(df['OverallRating'].min())`. -/
def overall_min (df : List Record) : Int := colMin (df.map Record.overallRating)

/-- Line 116: `overall_max = int(df['OverallRating'].max())`. -/
def overall_max (df : List Record) : Int := colMax (df.map Record.overallRating)

/-- Line 120: `nationality_options = sorted(df['Nationality'].unique())`:
the distinct nationality values in ascending order. -/
def nationality_options (df : List Record) : List String :=
  List.insertionSort (fun a b : String => a ≤ b) ((df.map Record.nationality).dedup)

/-- Lines 113, 117 and 121: the default control state — both sliders at
their full ranges and every nationality selected. -/
def defaultCriteria (df : List Record) : FilterCriteria :=
  ⟨age_min df, age_max df, overall_min df, overall_max df, nationality_options df⟩

theorem foldl_min_le (as : List Int) :
    ∀ a : Int, as.foldl min a ≤ a ∧ ∀ x ∈ as, as.foldl min a ≤ x := by
  induction as with
  | nil =>
    intro a
    exact ⟨le_refl a, by simp⟩
  | cons b bs ih =>
    intro a
    have h := ih (min a b)
    simp only [List.foldl_cons]
    refine ⟨h.1.trans (min_le_left a b), ?_⟩
    intro x hx
    rcases List.mem_cons.mp hx with rfl | hx2
    · exact h.1.trans (min_le_right a x)
    · exact h.2 x hx2

theorem le_foldl_max (as : List Int) :
    ∀ a : Int, a ≤ as.foldl max a ∧ ∀ x ∈ as, x ≤ as.foldl max a := by
  induction as with
  | nil =>
    intro a
    exact ⟨le_refl a, by simp⟩
  | cons b bs ih =>
    intro a
    have h := ih (max a b)
    simp only [List.foldl_cons]
    refine ⟨(le_max_left a b).trans h.1, ?_⟩
    intro x hx
    rcases List.mem_cons.mp hx with rfl | hx2
    · exact (le_max_right a x).trans h.1
    · exact h.2 x hx2

theorem colMin_le {xs : List Int} {x : Int} (h : x ∈ xs) : colMin xs ≤ x := by
  cases xs with
  | nil => cases h
  | cons a as =>
    rcases List.mem_cons.mp h with rfl | h2
    · exact (foldl_min_le as x).1
    · exact (foldl_min_le as a).2 x h2

theorem le_colMax {xs : List Int} {x : Int} (h : x ∈ xs) : x ≤ colMax xs := by
  cases xs with
  | nil => cases h
  | cons a as =>
    rcases List.mem_cons.mp h with rfl | h2
    · exact (le_foldl_max as x).1
    · exact (le_foldl_max as a).2 x h2

/-- C8: with the default control state (full age range, full rating range,
all distinct nationalities selected) the filter returns a nonempty dataset
unchanged. -/
theorem filtered_df_default_criteria (df : List Record) (_h : df ≠ []) :
    filtered_df df (defaultCriteria df) = df := by
  apply List.filter_eq_self.mpr
  intro r hr
  simp only [filterPred, defaultCriteria, Bool.and_eq_true, decide_eq_true_eq]
  refine ⟨⟨⟨⟨?_, ?_⟩, ?_⟩, ?_⟩, ?_⟩
  · exact colMin_le (List.mem_map_of_mem Record.age hr)
  · exact le_colMax (List.mem_map_of_mem Record.age hr)
  · exact colMin_le (List.mem_map_of_mem Record.overallRating hr)
  · exact le_colMax (List.mem_map_of_mem Record.overallRating hr)
  · exact ((List.perm_insertionSort _ _).mem_iff).mpr
      (List.mem_dedup.mpr (List.mem_map_of_mem Record.nationality hr))

/-- Witness for `filtered_df_default_criteria` on the scenario dataset. -/
theorem filtered_df_default_criteria_witness :
    dataset0 ≠ [] ∧ filtered_df dataset0 (defaultCriteria dataset0) = dataset0 :=
  ⟨by decide, filtered_df_default_criteria dataset0 (by decide)⟩

/-- A raw cell of a numeric column as loaded by `read_csv`: either a value
that parsed as a number, or a leftover string. If any cell of a column is a
leftover string the column holds Python objects, and the comparisons of
lines 125-126 (and the `.mean()` of line 177) raise a `TypeError` instead
of coercing. -/
inductive CellValue
  | num (n : Int)
  | str (s : String)
deriving Repr, DecidableEq

/-- The typed errors the pipeline can surface: a missing expected column
(pandas `KeyError`) or a non-numeric value in a numeric column (pandas
`TypeError`); either aborts the current render pass. -/
inductive PipelineError
  | schemaError (col : String)
  | valueParseError
deriving Repr, DecidableEq

/-- A row as loaded, before the numeric columns are known to be numeric. -/
structure RawRecord where
  age : CellValue
  overallRating : CellValue
  nationality : String
  club : String
  value : Int
  name : String
deriving Repr, DecidableEq

/-- A loaded table: which of the expected columns are present, and the
rows. (A column is present or absent for the whole table.) -/
structure RawTable where
  hasAge : Bool
  hasRating : Bool
  hasNationality : Bool
  hasClub : Bool
  rows : List RawRecord
deriving Repr, DecidableEq

/-- Reading one cell of a numeric column: a leftover string raises. -/
def toIntCell : CellValue → Except PipelineError Int
  | .num n => .ok n
  | .str _ => .error .valueParseError

/-- Elementwise evaluation over a whole column, stopping at the first
failing cell, as the vectorised comparisons of lines 125-126 do. -/
def mapExcept {α β : Type} (f : α → Except PipelineError β) :
    List α → Except PipelineError (List β)
  | [] => .ok []
  | a :: as =>
    match f a with
    | .error e => .error e
    | .ok b =>
      match mapExcept f as with
      | .error e => .error e
      | .ok bs => .ok (b :: bs)

/-- Reading one full row into a well-typed `Record`. -/
def parseRaw (r : RawRecord) : Except PipelineError Record :=
  match toIntCell r.age with
  | .error e => .error e
  | .ok a =>
    match toIntCell r.overallRating with
    | .error e => .error e
    | .ok o => .ok ⟨a, o, r.nationality, r.club, r.value, r.name⟩

/-- Lines 124-128 on a raw table: `df['Age']` raises if the column is
missing; the mask `df['Age'] >= lo` evaluates every cell of the column and
raises on a non-numeric one (likewise for `OverallRating`); then
`df['Nationality']` must be present; only then is the boolean-mask
selection performed. -/
def filterE (t : RawTable) (c : FilterCriteria) : Except PipelineError (List Record) :=
  if t.hasAge = false then .error (.schemaError "Age")
  else
    match mapExcept toIntCell (t.rows.map RawRecord.age) with
    | .error e => .error e
    | .ok _ =>
      if t.hasRating = false then .error (.schemaError "OverallRating")
      else
        match mapExcept toIntCell (t.rows.map RawRecord.overallRating) with
        | .error e => .error e
        | .ok _ =>
          if t.hasNationality = false then .error (.schemaError "Nationality")
          else
            match mapExcept parseRaw t.rows with
            | .error e => .error e
            | .ok recs => .ok (filtered_df recs c)

/-- The render pass of the two pipeline stages on a raw table: the filter
of lines 124-128, then the aggregation of lines 177-178 (whose
`groupby('Club')` raises if the `Club` column is missing). An error in
either stage aborts the pass; no partial aggregate is produced. -/
def pipelineE (t : RawTable) (c : FilterCriteria) : Except PipelineError (List ClubMean) :=
  match filterE t c with
  | .error e => .error e
  | .ok recs =>
    if t.hasClub = false then .error (.schemaError "Club")
    else .ok (club_avg recs)

theorem mapExcept_error {α β : Type} (f : α → Except PipelineError β) (l : List α)
    (h : ∃ a ∈ l, ∃ e, f a = .error e) : ∃ e, mapExcept f l = .error e := by
  induction l with
  | nil =>
    obtain ⟨a, ha, _⟩ := h
    cases ha
  | cons b bs ih =>
    obtain ⟨a, ha, e, he⟩ := h
    rcases List.mem_cons.mp ha with rfl | ha2
    · exact ⟨e, by simp [mapExcept, he]⟩
    · match hfb : f b with
      | .error e2 => exact ⟨e2, by simp [mapExcept, hfb]⟩
      | .ok b2 =>
        obtain ⟨e3, he3⟩ := ih ⟨a, ha2, e, he⟩
        exact ⟨e3, by simp [mapExcept, hfb, he3]⟩

theorem filterE_surfaces_error (t : RawTable) (c : FilterCriteria)
    (h : t.hasAge = false ∨ t.hasRating = false ∨ t.hasNationality = false ∨
      ∃ r ∈ t.rows, (∃ s, r.age = CellValue.str s) ∨
        (∃ s, r.overallRating = CellValue.str s)) :
    ∃ e, filterE t c = Except.error e := by
  by_cases hA : t.hasAge = false
  · exact ⟨PipelineError.schemaError "Age", by simp [filterE, hA]⟩
  · match hma : mapExcept toIntCell (t.rows.map RawRecord.age) with
    | .error e => exact ⟨e, by simp [filterE, hA, hma]⟩
    | .ok _ =>
      by_cases hR : t.hasRating = false
      · exact ⟨PipelineError.schemaError "OverallRating", by simp [filterE, hA, hma, hR]⟩
      · match hmr : mapExcept toIntCell (t.rows.map RawRecord.overallRating) with
        | .error e => exact ⟨e, by simp [filterE, hA, hma, hR, hmr]⟩
        | .ok _ =>
          by_cases hN : t.hasNationality = false
          · exact ⟨PipelineError.schemaError "Nationality", by simp [filterE, hA, hma, hR, hmr, hN]⟩
          · exfalso
            rcases h with h | h | h | ⟨r, hr, hbad⟩
            · exact hA h
            · exact hR h
            · exact hN h
            · rcases hbad with ⟨s, hs⟩ | ⟨s, hs⟩
              · obtain ⟨e, he⟩ := mapExcept_error toIntCell (t.rows.map RawRecord.age)
                  ⟨r.age, List.mem_map_of_mem _ hr, PipelineError.valueParseError, by rw [hs]; rfl⟩
                rw [hma] at he
                exact Except.noConfusion he
              · obtain ⟨e, he⟩ := mapExcept_error toIntCell
                  (t.rows.map RawRecord.overallRating)
                  ⟨r.overallRating, List.mem_map_of_mem _ hr,
                    PipelineError.valueParseError, by rw [hs]; rfl⟩
                rw [hmr] at he
                exact Except.noConfusion he

/-- C6: an input with a non-numeric value in a numeric column, or with an
expected column missing, makes the filter-and-aggregate render pass
surface a typed error — no silent coercion, no partial aggregate. -/
theorem pipelineE_surfaces_error (t : RawTable) (c : FilterCriteria)
    (h : t.hasAge = false ∨ t.hasRating = false ∨ t.hasNationality = false ∨
      t.hasClub = false ∨
      ∃ r ∈ t.rows, (∃ s, r.age = CellValue.str s) ∨
        (∃ s, r.overallRating = CellValue.str s)) :
    ∃ e, pipelineE t c = Except.error e := by
  by_cases hC : t.hasClub = false
  · match hf : filterE t c with
    | .error e => exact ⟨e, by simp [pipelineE, hf]⟩
    | .ok recs => exact ⟨PipelineError.schemaError "Club", by simp [pipelineE, hf, hC]⟩
  · have h4 : t.hasAge = false ∨ t.hasRating = false ∨ t.hasNationality = false ∨
        ∃ r ∈ t.rows, (∃ s, r.age = CellValue.str s) ∨
          (∃ s, r.overallRating = CellValue.str s) := by
      rcases h with h | h | h | h | h
      · exact Or.inl h
      · exact Or.inr (Or.inl h)
      · exact Or.inr (Or.inr (Or.inl h))
      · exact absurd h hC
      · exact Or.inr (Or.inr (Or.inr h))
    obtain ⟨e, he⟩ := filterE_surfaces_error t c h4
    exact ⟨e, by simp [pipelineE, he]⟩

/-- A row whose `Age` cell did not parse as a number. -/
def rawBad : RawRecord := ⟨CellValue.str "n/a", CellValue.num 70, "A", "X", 1, "P1"⟩

/-- A table with all expected columns but one non-numeric `Age` cell. -/
def rawTableBad : RawTable := ⟨true, true, true, true, [rawBad]⟩

/-- Witness for `pipelineE_surfaces_error`: the one bad cell aborts the
render pass with a typed error. -/
theorem pipelineE_surfaces_error_witness :
    ∃ e, pipelineE rawTableBad crit0 = Except.error e :=
  pipelineE_surfaces_error rawTableBad crit0
    (Or.inr (Or.inr (Or.inr (Or.inr
      ⟨rawBad, by simp [rawTableBad], Or.inl ⟨"n/a", rfl⟩⟩))))

/-- The bindings a render pass creates: the cached dataset `df`, the
`filtered_df` of lines 124-128, and the `club_avg` of lines 177-178. -/
structure RenderState where
  df : List Record
  filtered : List Record
  clubAgg : List ClubMean
deriving Repr, DecidableEq

/-- One render pass of the pipeline over well-typed data: line 124 binds
the filtered view from `df`, line 177 binds the aggregate from the
filtered view. Boolean-mask selection and `groupby/mean/sort_values/head`
each return a fresh frame (none operates in place), so the pass is a pure
function and the frames it read are returned unchanged. -/
def renderPass (df : List Record) (c : FilterCriteria) : RenderState :=
  let filtered := filtered_df df c
  let agg := club_avg filtered
  ⟨df, filtered, agg⟩

/-- C10: neither filtering nor aggregation mutates its input: after a full
render pass the dataset binding still holds the original dataset (every
row in its original order) and the filtered-view binding still holds
exactly the filter's output even after the aggregate was computed from
it. -/
theorem renderPass_no_mutation (df : List Record) (c : FilterCriteria) :
    (renderPass df c).df = df ∧
      (renderPass df c).filtered = filtered_df df c ∧
      (renderPass df c).clubAgg = club_avg (filtered_df df c) :=
  ⟨rfl, rfl, rfl⟩
